import Mathlib

/-!
Verification of the timeout scheduling and persistence core of the
`light_timeout` repository, which contains two near-duplicate integrations:
`custom_components/auto_off_timer` (class `AutoOffTimerManager`) and
`custom_components/light_timeout` (closures inside `async_setup_entry`).

The embedding models Python dicts as insertion-ordered association lists
(matching CPython dict semantics: assignment updates in place, otherwise
appends; `pop` removes; iteration follows insertion order, and mutating the
dict while iterating makes the next iterator step raise RuntimeError).
Timestamps are modelled as integer epoch seconds rendered in decimal:
`datetime.isoformat` is decimal formatting (`isoFormat`) and
`datetime.fromisoformat` is decimal parsing (`parseIso`, returning `none`
exactly where the Python call raises on a malformed string).  Template
rendering (`Template(...).async_render()`) is an injected function
`String → Except String String`, `.error` modelling a raised exception.
Scheduled callbacks (`async_call_later`) are modelled as armed-timer records
carrying the callback's bound entity target, a delay and a cancelled flag.
-/

/-- `d.get(k)` on a Python dict modelled as an ordered association list. -/
def dictGet {α : Type} (d : List (String × α)) (k : String) : Option α :=
  (d.find? (fun p => p.1 == k)).map Prod.snd

/-- `d.pop(k, None)`: remove the binding of `k` (no-op when absent). -/
def dictPop {α : Type} (d : List (String × α)) (k : String) : List (String × α) :=
  d.filter (fun p => p.1 != k)

/-- `d[k] = v`: update in place when `k` is present, else append. -/
def dictInsert {α : Type} (d : List (String × α)) (k : String) (v : α) :
    List (String × α) :=
  if d.any (fun p => p.1 == k) then
    d.map (fun p => if p.1 == k then (k, v) else p)
  else d ++ [(k, v)]

/-- The key list of a dict, in iteration order. -/
def keysOf {α : Type} (d : List (String × α)) : List String := d.map Prod.fst

/-- Two dicts have the same key set. -/
def sameKeys {α β : Type} (d1 : List (String × α)) (d2 : List (String × β)) : Prop :=
  ∀ k, k ∈ keysOf d1 ↔ k ∈ keysOf d2

/-- The value of an ASCII digit character, `none` otherwise. -/
def digitVal (c : Char) : Option Nat :=
  if c.toNat ≥ 48 && c.toNat ≤ 57 then some (c.toNat - 48) else none

/-- Read a digit string as a natural number (none on any non-digit). -/
def digitsToNatAux : List Char → Nat → Option Nat
  | [], acc => some acc
  | c :: cs, acc =>
      match digitVal c with
      | some d => digitsToNatAux cs (acc * 10 + d)
      | none => none

/-- `datetime.fromisoformat`, on timestamps modelled as signed integer epoch
seconds rendered in decimal; `none` models the `ValueError` raised on a
malformed string. -/
def parseIso (s : String) : Option Int :=
  match s.data with
  | [] => none
  | ['-'] => none
  | '-' :: rest => (digitsToNatAux rest 0).map (fun n => -(n : Int))
  | l => (digitsToNatAux l 0).map (fun n => (n : Int))

/-- Decimal digits of `n`, most significant first (`fuel ≥` digit count). -/
def natDigitsAux : Nat → Nat → List Char → List Char
  | 0, _, acc => acc
  | fuel + 1, n, acc =>
      if n < 10 then Char.ofNat (48 + n % 10) :: acc
      else natDigitsAux fuel (n / 10) (Char.ofNat (48 + n % 10) :: acc)

/-- `datetime.isoformat` on timestamps modelled as integer epoch seconds:
render in decimal, the exact inverse of `parseIso`. -/
def isoFormat (t : Int) : String :=
  match t with
  | Int.ofNat n => String.mk (natDigitsAux (n + 1) n [])
  | Int.negSucc m => String.mk ('-' :: natDigitsAux (m + 2) (m + 1) [])

/-- `entity_id.split(".")[0]`: everything before the first `"."` (the whole
string when there is none), i.e. the domain part of an entity id. -/
def entityDomain (eid : String) : String :=
  String.mk (eid.data.takeWhile (fun c => c != '.'))

/-- ASCII whitespace as stripped by Python's `str.strip()`. -/
def isPySpace (c : Char) : Bool := c == ' ' || c == '\t' || c == '\n' || c == '\r'

/-- ASCII lowercasing as done by `str.lower()` on the relevant values. -/
def lowerChar (c : Char) : Char :=
  if c.toNat ≥ 65 && c.toNat ≤ 90 then Char.ofNat (c.toNat + 32) else c

/-- `str.strip()` on a character list. -/
def stripChars (l : List Char) : List Char :=
  ((l.dropWhile isPySpace).reverse.dropWhile isPySpace).reverse

/-- `str(rendered).strip().lower() in ("1", "true", "yes", "on")`. -/
def truthyResult (s : String) : Bool :=
  ["1", "true", "yes", "on"].contains (String.mk ((stripChars s.data).map lowerChar))

/-- A state object as delivered by the event subscription adapter. -/
structure EntityState where
  state : String
deriving DecidableEq

/-- A `state_changed` event: `event.data` fields used by the handlers. -/
structure StateEvent where
  entity_id : String
  old_state : Option EntityState
  new_state : Option EntityState
deriving DecidableEq

/-- One timer armed through `async_call_later` by `AutoOffTimerManager`:
its handle id, the entity the callback was bound to, the requested delay in
seconds, and whether its cancel function has been called. -/
structure AutoTimer where
  tid : Nat
  target : String
  delay : Int
  cancelled : Bool
deriving DecidableEq

/-- The mutable state of one `AutoOffTimerManager` instance together with its
scheduling environment: `unsubs`, `timers` and `expiry_map` are the instance
attributes, `persisted` is the content of the `Store` (`none` when removed or
never written), `armed`/`nextTid` model the host scheduler, and `calls`
records the `(domain, service, entity_id)` triples passed to
`hass.services.async_call`. -/
structure AutoState where
  unsubs : List String
  timers : List (String × Nat)
  expiry_map : List (String × String)
  persisted : Option (List (String × String))
  armed : List AutoTimer
  nextTid : Nat
  calls : List (String × String × String)
  saves : Nat
deriving DecidableEq

/-- Calling the cancel handle of timer `n` (idempotent). -/
def cancelTid (l : List AutoTimer) (n : Nat) : List AutoTimer :=
  l.map (fun t => if t.tid == n then { t with cancelled := true } else t)

/-- Embeds `AutoOffTimerManager._save_expiry_map`. -/
def saveExpiryMap (st : AutoState) : AutoState :=
  { st with persisted := some st.expiry_map, saves := st.saves + 1 }

/-- Embeds `AutoOffTimerManager._schedule_timeout` at wall-clock time `now`
with `timeout = entry.options[CONF_TIMEOUT]`: cancel any existing timer for
the entity, write `expiry = now + timeout` into the expiry map, persist, and
arm a fresh timer bound to the entity. -/
def scheduleTimeout (st : AutoState) (eid : String) (now timeout : Int) : AutoState :=
  let st1 :=
    match dictGet st.timers eid with
    | some h => { st with timers := dictPop st.timers eid, armed := cancelTid st.armed h }
    | none => st
  let st2 := { st1 with expiry_map := dictInsert st1.expiry_map eid (isoFormat (now + timeout)) }
  let st3 := saveExpiryMap st2
  { st3 with
      armed := st3.armed ++ [⟨st3.nextTid, eid, timeout, false⟩],
      timers := dictInsert st3.timers eid st3.nextTid,
      nextTid := st3.nextTid + 1 }

/-- Embeds `AutoOffTimerManager._cancel_timeout`: only when a live timer
exists, cancel it, drop the expiry entry and persist. -/
def cancelTimeout (st : AutoState) (eid : String) : AutoState :=
  match dictGet st.timers eid with
  | some h =>
      let st1 := { st with timers := dictPop st.timers eid, armed := cancelTid st.armed h }
      saveExpiryMap { st1 with expiry_map := dictPop st1.expiry_map eid }
  | none => st

/-- Embeds `AutoOffTimerManager._on_timeout`.  `dispatchOk` tells whether the
`hass.services.async_call(domain, "turn_off", ...)` succeeds; when it raises,
the lines after the call never run.  The first component is `true` iff the
coroutine ran to completion without raising. -/
def onTimeout (st : AutoState) (eid : String) (dispatchOk : Bool) : Bool × AutoState :=
  let st1 := { st with calls := st.calls ++ [(entityDomain eid, "turn_off", eid)] }
  if dispatchOk then
    let st2 := { st1 with
        timers := dictPop st1.timers eid,
        expiry_map := dictPop st1.expiry_map eid }
    (true, saveExpiryMap st2)
  else (false, st1)

/-- Embeds `AutoOffTimerManager._should_enable_for_entity`; `render` models
`Template(template, hass).async_render()`, `.error` a raised exception (the
source catches it, logs and returns `False`). -/
def shouldEnableForEntity (template : Option String)
    (render : String → Except String String) : Bool :=
  match template with
  | none => true
  | some t =>
      if t == "" then true
      else
        match render t with
        | Except.ok r => truthyResult r
        | Except.error _ => false

/-- Embeds `AutoOffTimerManager._state_change_handler`.  The first component
is `true` iff the handler returned without raising: when the new state is ON
and `old_state` is `None`, line 211 (`old_state.state == STATE_UNAVAILABLE`)
raises `AttributeError`. -/
def stateChangeHandler (st : AutoState) (ev : StateEvent) (template : Option String)
    (render : String → Except String String) (now timeout : Int) : Bool × AutoState :=
  match ev.new_state with
  | none => (true, st)
  | some ns =>
      if ns.state == "on" then
        match ev.old_state with
        | none => (false, st)
        | some os =>
            if os.state == "unavailable" then (true, st)
            else if !(shouldEnableForEntity template render) then (true, st)
            else (true, scheduleTimeout st ev.entity_id now timeout)
      else if ns.state == "off" then (true, cancelTimeout st ev.entity_id)
      else (true, st)

/-- The exception class of a Python `RuntimeError` raised by a dict iterator
whose dict changed size during iteration. -/
inductive PyError
  | runtimeError
deriving DecidableEq

/-- The body of the `for entity_id, expiry_iso in self.expiry_map.items()`
loop of `AutoOffTimerManager._restore_timers`: on a parseable expiry, arm a
timer for `max(expiry - now, 1)` seconds bound to the entity (the lambda
early-binds via the `eid=entity_id` default argument); on a parse failure the
except-handler pops the entry from the map being iterated. -/
def restoreStep (st : AutoState) (now : Int) (eid iso : String) : AutoState :=
  match parseIso iso with
  | some expiry =>
      { st with
          armed := st.armed ++ [⟨st.nextTid, eid, max (expiry - now) 1, false⟩],
          timers := dictInsert st.timers eid st.nextTid,
          nextTid := st.nextTid + 1 }
  | none => { st with expiry_map := dictPop st.expiry_map eid }

/-- The restore loop of `_restore_timers`.  CPython dict iterators record the
dict's size at creation (`orig`) and every iterator step — including the
final exhaustion step — raises `RuntimeError` when the current size differs. -/
def restoreLoop (now : Int) (orig : Nat) :
    List (String × String) → AutoState → Except PyError AutoState
  | [], st =>
      if st.expiry_map.length = orig then Except.ok st
      else Except.error PyError.runtimeError
  | (eid, iso) :: rest, st =>
      if st.expiry_map.length = orig then
        restoreLoop now orig rest (restoreStep st now eid iso)
      else Except.error PyError.runtimeError

/-- Embeds `AutoOffTimerManager._restore_timers`: run the loop over the
loaded map, then save the cleaned expiry map. -/
def restoreTimers (st : AutoState) (now : Int) : Except PyError AutoState :=
  match restoreLoop now st.expiry_map.length st.expiry_map st with
  | Except.ok st1 => Except.ok (saveExpiryMap st1)
  | Except.error e => Except.error e

/-- Embeds `AutoOffTimerManager.async_unload`: drop all subscriptions, call
every live timer's cancel handle, clear the registry and remove the store. -/
def asyncUnload (st : AutoState) : AutoState :=
  { st with
      unsubs := [],
      armed := st.armed.map (fun t =>
        if st.timers.any (fun p => p.2 == t.tid) then { t with cancelled := true } else t),
      timers := [],
      persisted := none }

/-- A fresh manager state (empty registry, nothing persisted). -/
def autoInit : AutoState := ⟨[], [], [], none, [], 0, [], 0⟩

/-- What a `light_timeout` timer callback will invoke `on_timeout` with:
either the entity bound at arm time (parameter capture, per-call scope), or —
for the timers armed by the restore loop of `async_setup_entry` — the
enclosing function's `entity_id` variable, captured by closure and resolved
only when the callback runs (Python late binding). -/
inductive TimerTarget
  | boundEntity (eid : String)
  | loopCell
deriving DecidableEq

/-- Resolve a timer target given the final value of the restore loop's
`entity_id` variable at callback time. -/
def resolveTarget (finalLoopVar : Option String) : TimerTarget → Option String
  | TimerTarget.boundEntity e => some e
  | TimerTarget.loopCell => finalLoopVar

/-- One timer armed through `async_call_later` by `light_timeout`. -/
structure LightTimer where
  tid : Nat
  target : TimerTarget
  delay : Int
  cancelled : Bool
deriving DecidableEq

/-- The per-entry state built by `light_timeout.async_setup_entry`:
`unsubs`, `timers`, `expiry_map` are the `entry_data` dict entries,
`entryData` is the persisted `entry.data["expiry_timestamps"]` map written by
`save_expiry_map` via `async_update_entry`, `armed`/`nextTid` model the host
scheduler and `calls` the service dispatches. -/
structure LightState where
  unsubs : List String
  timers : List (String × Nat)
  expiry_map : List (String × String)
  entryData : List (String × String)
  armed : List LightTimer
  nextTid : Nat
  calls : List (String × String × String)
deriving DecidableEq

/-- Calling the cancel handle of light timer `n` (idempotent). -/
def lightCancelTid (l : List LightTimer) (n : Nat) : List LightTimer :=
  l.map (fun t => if t.tid == n then { t with cancelled := true } else t)

/-- Embeds `save_expiry_map` in `light_timeout.async_setup_entry`: persist
the working map into the config entry's data. -/
def lightSave (st : LightState) : LightState :=
  { st with entryData := st.expiry_map }

/-- Embeds `on_timeout` in `light_timeout.async_setup_entry`: the dispatch
domain is the fixed string `"light"`.  As in `onTimeout`, a raising dispatch
skips the cleanup lines. -/
def lightOnTimeout (st : LightState) (eid : String) (dispatchOk : Bool) :
    Bool × LightState :=
  let st1 := { st with calls := st.calls ++ [("light", "turn_off", eid)] }
  if dispatchOk then
    let st2 := { st1 with
        timers := dictPop st1.timers eid,
        expiry_map := dictPop st1.expiry_map eid }
    (true, lightSave st2)
  else (false, st1)

/-- Embeds `_schedule_timeout` in `light_timeout.async_setup_entry`; the
callback binds the function parameter `entity_id` (per-call scope). -/
def lightScheduleTimeout (st : LightState) (eid : String) (now timeout : Int) :
    LightState :=
  let st1 :=
    match dictGet st.timers eid with
    | some h => { st with timers := dictPop st.timers eid, armed := lightCancelTid st.armed h }
    | none => st
  let st2 := lightSave
    { st1 with expiry_map := dictInsert st1.expiry_map eid (isoFormat (now + timeout)) }
  { st2 with
      armed := st2.armed ++ [⟨st2.nextTid, TimerTarget.boundEntity eid, timeout, false⟩],
      timers := dictInsert st2.timers eid st2.nextTid,
      nextTid := st2.nextTid + 1 }

/-- Embeds `_cancel_timeout` in `light_timeout.async_setup_entry`. -/
def lightCancelTimeout (st : LightState) (eid : String) : LightState :=
  match dictGet st.timers eid with
  | some h =>
      let st1 := { st with timers := dictPop st.timers eid, armed := lightCancelTid st.armed h }
      lightSave { st1 with expiry_map := dictPop st1.expiry_map eid }
  | none => st

/-- Embeds `_state_change_handler` in `light_timeout.async_setup_entry`.
There is no unavailable guard, and the walrus-guarded template rendering is
not wrapped in try/except: a raising render propagates (first component
`false`).  The non-ON branch cancels only when the old state was ON. -/
def lightStateChangeHandler (st : LightState) (ev : StateEvent)
    (template : Option String) (render : String → Except String String)
    (now timeout : Int) : Bool × LightState :=
  match ev.new_state with
  | none => (true, st)
  | some ns =>
      if ns.state == "on" then
        match template with
        | some t =>
            if t == "" then (true, lightScheduleTimeout st ev.entity_id now timeout)
            else
              match render t with
              | Except.error _ => (false, st)
              | Except.ok r =>
                  if truthyResult r then (true, lightScheduleTimeout st ev.entity_id now timeout)
                  else (true, st)
        | none => (true, lightScheduleTimeout st ev.entity_id now timeout)
      else
        match ev.old_state with
        | some os =>
            if os.state == "on" then (true, lightCancelTimeout st ev.entity_id)
            else (true, st)
        | none => (true, st)

/-- The body of the restore loop in `light_timeout.async_setup_entry`: the
armed callback `lambda _: hass.create_task(on_timeout(entity_id))` captures
the loop variable by closure, hence target `loopCell`; a parse failure pops
the entry from the map being iterated. -/
def lightRestoreStep (st : LightState) (now : Int) (eid iso : String) : LightState :=
  match parseIso iso with
  | some expiry =>
      { st with
          armed := st.armed ++ [⟨st.nextTid, TimerTarget.loopCell, max (expiry - now) 1, false⟩],
          timers := dictInsert st.timers eid st.nextTid,
          nextTid := st.nextTid + 1 }
  | none => { st with expiry_map := dictPop st.expiry_map eid }

/-- The restore loop of `light_timeout.async_setup_entry`, threading the
current value of the loop variable `entity_id` (the second component of the
result); same dict-changed-size-during-iteration semantics as `restoreLoop`. -/
def lightRestoreLoop (now : Int) (orig : Nat) :
    List (String × String) → Option String → LightState →
      Except PyError (Option String × LightState)
  | [], v, st =>
      if st.expiry_map.length = orig then Except.ok (v, st)
      else Except.error PyError.runtimeError
  | (eid, iso) :: rest, _, st =>
      if st.expiry_map.length = orig then
        lightRestoreLoop now orig rest (some eid) (lightRestoreStep st now eid iso)
      else Except.error PyError.runtimeError

/-- Embeds the restore section of `light_timeout.async_setup_entry` (lines
59–73): run the loop, then `save_expiry_map()`.  Returns the final value of
the loop variable alongside the state. -/
def lightRestore (st : LightState) (now : Int) :
    Except PyError (Option String × LightState) :=
  match lightRestoreLoop now st.expiry_map.length st.expiry_map none st with
  | Except.ok (v, st1) => Except.ok (v, lightSave st1)
  | Except.error e => Except.error e

/-- Embeds `light_timeout.async_unload_entry`: unsubscribe everything, call
every live timer's cancel handle and discard the in-memory entry data.  The
persisted `entry.data["expiry_timestamps"]` map is not touched. -/
def lightUnloadEntry (st : LightState) : LightState :=
  { st with
      unsubs := [],
      armed := st.armed.map (fun t =>
        if st.timers.any (fun p => p.2 == t.tid) then { t with cancelled := true } else t),
      timers := [] }

/-- A fresh `light_timeout` entry state. -/
def lightInit : LightState := ⟨[], [], [], [], [], 0, []⟩

/-- A render function modelling a template that evaluates to truthy. -/
def renderTrue : String → Except String String := fun _ => Except.ok "true"

/-- A render function modelling a template whose evaluation raises. -/
def renderRaises : String → Except String String := fun _ => Except.error "boom"

/-- An `AutoOffTimerManager` state with one armed timer for `light.a`, its
expiry persisted — the Armed state in which a timer fire is delivered. -/
def autoArmedA : AutoState :=
  ⟨[], [("light.a", 0)], [("light.a", "10")], some [("light.a", "10")],
    [⟨0, "light.a", 10, false⟩], 1, [], 1⟩

/-- A `light_timeout` state freshly loaded with two persisted entries whose
expiries (epoch seconds 0 and 5) lie in the past of `now = 100`. -/
def lightLoadedTwo : LightState :=
  ⟨[], [], [("light.a", "0"), ("light.b", "5")], [("light.a", "0"), ("light.b", "5")],
    [], 0, []⟩

/-- The `auto_off_timer` counterpart of `lightLoadedTwo`. -/
def autoLoadedTwo : AutoState :=
  ⟨[], [], [("light.a", "0"), ("light.b", "5")], some [("light.a", "0"), ("light.b", "5")],
    [], 0, [], 0⟩

/-- An `auto_off_timer` state loaded with a corrupt first entry and a
parseable second entry. -/
def autoLoadedCorrupt : AutoState :=
  ⟨[], [], [("light.a", "garbage"), ("light.b", "100")],
    some [("light.a", "garbage"), ("light.b", "100")], [], 0, [], 0⟩

/-- The `light_timeout` counterpart of `autoLoadedCorrupt`. -/
def lightLoadedCorrupt : LightState :=
  ⟨[], [], [("light.a", "garbage"), ("light.b", "100")],
    [("light.a", "garbage"), ("light.b", "100")], [], 0, []⟩

/-- A `light_timeout` state with one live timer, one subscription and a
persisted expiry entry — the state unload is called on. -/
def lightArmedA : LightState :=
  ⟨["light.a"], [("light.a", 0)], [("light.a", "300")], [("light.a", "300")],
    [⟨0, TimerTarget.boundEntity "light.a", 300, false⟩], 1, []⟩

/-- The timers armed for `eid` whose cancel handle has not been called. -/
def liveTimersFor (st : AutoState) (eid : String) : List AutoTimer :=
  st.armed.filter (fun t => !t.cancelled && t.target == eid)

/-- An `auto_off_timer` state freshly loaded with one persisted entry. -/
def autoLoadedOne : AutoState :=
  ⟨[], [], [("light.a", "50")], some [("light.a", "50")], [], 0, [], 0⟩

/-- The state `restoreTimers autoLoadedOne 40` reconstructs: one timer armed
for `light.a` with delay `max(50 - 40, 1) = 10`, map unchanged and saved. -/
def autoRestoredOne : AutoState :=
  ⟨[], [("light.a", 0)], [("light.a", "50")], some [("light.a", "50")],
    [⟨0, "light.a", 10, false⟩], 1, [], 1⟩

/-- C1, counterexample.  The claim says that when the off-action dispatch
raises, the timer handle is removed from the registry, the ExpiryMap entry is
removed and the map is persisted, exactly as on success.  At the concrete
Armed state `autoArmedA`, a fire whose dispatch raises leaves the handle in
`timers`, leaves the ExpiryMap entry, performs no save — and the coroutine
does not complete (first component `false`). -/
theorem c1_dispatch_failure_counterexample :
    (onTimeout autoArmedA "light.a" false).1 = false ∧
    (onTimeout autoArmedA "light.a" false).2.timers = [("light.a", 0)] ∧
    (onTimeout autoArmedA "light.a" false).2.expiry_map = [("light.a", "10")] ∧
    (onTimeout autoArmedA "light.a" false).2.saves = autoArmedA.saves := by
  exact ⟨rfl, rfl, rfl, rfl⟩

/-- C1, amended.  `_on_timeout` has no try/except around
`hass.services.async_call`: when the dispatch raises, the exception
propagates out of the coroutine and none of the cleanup lines run — the
timer handle, the ExpiryMap entry and the persisted store are all left
exactly as they were (only the dispatch attempt itself is recorded).  The
removal of the handle and entry and the persist happen only on a successful
dispatch. -/
theorem c1_dispatch_failure_keeps_state (st : AutoState) (eid : String) :
    onTimeout st eid false =
      (false, { st with calls := st.calls ++ [(entityDomain eid, "turn_off", eid)] }) ∧
    (onTimeout st eid true).2.timers = dictPop st.timers eid ∧
    (onTimeout st eid true).2.expiry_map = dictPop st.expiry_map eid ∧
    (onTimeout st eid true).2.persisted = some (dictPop st.expiry_map eid) ∧
    (onTimeout st eid true).1 = true := by
  exact ⟨rfl, rfl, rfl, rfl, rfl⟩

/-- C2.  Restoring `lightLoadedTwo` at `now = 100` arms one timer per entry
with the claimed clamped delay `max(expiry - now, 1) = 1`, but both armed
callbacks late-bind the loop variable `entity_id`: resolved at fire time they
both invoke `on_timeout` for `"light.b"`, so `light.b` is dispatched twice
and `light.a` never — not "exactly once for that same entity".  The sibling
`auto_off_timer` restore (default-argument binding) targets each entry's own
entity. -/
theorem c2_restore_late_binding :
    Except.map (fun p => p.2.armed.map (fun t => resolveTarget p.1 t.target))
        (lightRestore lightLoadedTwo 100) =
      Except.ok [some "light.b", some "light.b"] ∧
    Except.map (fun p => p.2.armed.map (fun t => t.delay)) (lightRestore lightLoadedTwo 100) =
      Except.ok [1, 1] ∧
    Except.map (fun p => keysOf p.2.expiry_map) (lightRestore lightLoadedTwo 100) =
      Except.ok ["light.a", "light.b"] ∧
    Except.map (fun s => s.armed.map (fun t => t.target)) (restoreTimers autoLoadedTwo 100) =
      Except.ok ["light.a", "light.b"] ∧
    Except.map (fun s => s.armed.map (fun t => t.delay)) (restoreTimers autoLoadedTwo 100) =
      Except.ok [1, 1] := by
  exact ⟨rfl, rfl, rfl, rfl, rfl⟩

/-- C3.  In both integrations the restore loop's except-handler pops the
corrupt entry from the very dict being iterated, so the next iterator step
raises `RuntimeError: dictionary changed size during iteration`:
reconciliation does not complete, the remaining parseable entry is never
restored, and the cleaned map is never saved. -/
theorem c3_corrupt_entry_raises :
    restoreTimers autoLoadedCorrupt 0 = Except.error PyError.runtimeError ∧
    lightRestore lightLoadedCorrupt 0 = Except.error PyError.runtimeError := by
  exact ⟨rfl, rfl⟩

/-- C8, counterexample.  The claim says every fire dispatches to the domain
parsed from the entity id ("switch.fan" → "switch", not a fixed domain); but
`light_timeout`'s `on_timeout` dispatches `"switch.fan"` to the fixed domain
`"light"`. -/
theorem c8_fixed_domain_counterexample :
    (lightOnTimeout lightInit "switch.fan" true).2.calls =
      [("light", "turn_off", "switch.fan")] ∧
    entityDomain "switch.fan" = "switch" ∧
    ("light" : String) ≠ "switch" := by
  exact ⟨rfl, rfl, by decide⟩

/-- C8, amended.  `auto_off_timer`'s `_on_timeout` dispatches to the domain
obtained by `entity_id.split(".")[0]` (so `"switch.fan"` goes to `"switch"`),
while `light_timeout`'s `on_timeout` always dispatches to the fixed domain
`"light"`. -/
theorem c8_domain_parsed (st : AutoState) (eid : String) (dispatchOk : Bool) :
    (onTimeout st eid dispatchOk).2.calls =
      st.calls ++ [(entityDomain eid, "turn_off", eid)] ∧
    entityDomain "switch.fan" = "switch" := by
  cases dispatchOk <;> exact ⟨rfl, rfl⟩

/-- C4, counterexample.  The claim says an ON event whose preceding state
was `"unavailable"` never schedules a timer nor creates an ExpiryMap entry;
but `light_timeout`'s handler has no unavailable guard: with no gate template
configured it arms a timer and writes the expiry entry for exactly such an
event. -/
theorem c4_unavailable_counterexample :
    (lightStateChangeHandler lightInit ⟨"light.a", some ⟨"unavailable"⟩, some ⟨"on"⟩⟩
        none renderTrue 0 300).2.timers = [("light.a", 0)] ∧
    dictGet (lightStateChangeHandler lightInit ⟨"light.a", some ⟨"unavailable"⟩, some ⟨"on"⟩⟩
        none renderTrue 0 300).2.expiry_map "light.a" = some "300" := by
  exact ⟨rfl, rfl⟩

/-- C4, amended.  In `auto_off_timer`, an ON event whose immediately
preceding state was `"unavailable"` is ignored before the gate is even
consulted: the handler returns with the state untouched (no timer, no
ExpiryMap entry), for every template and render outcome. -/
theorem c4_unavailable_guard (st : AutoState) (ev : StateEvent)
    (template : Option String) (render : String → Except String String)
    (now timeout : Int)
    (hnew : ev.new_state = some ⟨"on"⟩)
    (hold : ev.old_state = some ⟨"unavailable"⟩) :
    stateChangeHandler st ev template render now timeout = (true, st) := by
  obtain ⟨e, o, n⟩ := ev
  simp only at hnew hold
  subst hnew hold
  rfl

/-- Witness for C4: a concrete unavailable→ON event with a configured,
truthy-rendering gate still leaves the manager state untouched. -/
theorem c4_unavailable_guard_witness :
    stateChangeHandler autoInit ⟨"light.a", some ⟨"unavailable"⟩, some ⟨"on"⟩⟩
        (some "cond") renderTrue 0 300 = (true, autoInit) :=
  c4_unavailable_guard autoInit ⟨"light.a", some ⟨"unavailable"⟩, some ⟨"on"⟩⟩
    (some "cond") renderTrue 0 300 rfl rfl

/-- C5, counterexample.  The claim says a raising gate evaluation is treated
as false and does not propagate out of the event handling; but in
`light_timeout` the template render is not wrapped in try/except, so the
exception escapes the state-change handler (first component `false`). -/
theorem c5_gate_raise_counterexample :
    (lightStateChangeHandler lightInit ⟨"light.a", some ⟨"off"⟩, some ⟨"on"⟩⟩
        (some "expr") renderRaises 0 300).1 = false := by
  exact rfl

/-- C5, amended.  In `auto_off_timer`, when rendering the configured gate
template raises, `_should_enable_for_entity` catches the exception, logs it
and returns `False`: the handler completes normally and leaves the state
untouched — no timer armed, no ExpiryMap entry written. -/
theorem c5_gate_raise_fails_closed (st : AutoState) (ev : StateEvent)
    (os : EntityState) (tpl msg : String) (render : String → Except String String)
    (now timeout : Int)
    (hnew : ev.new_state = some ⟨"on"⟩)
    (hold : ev.old_state = some os)
    (hos : os.state ≠ "unavailable")
    (htpl : tpl ≠ "")
    (hrender : render tpl = Except.error msg) :
    stateChangeHandler st ev (some tpl) render now timeout = (true, st) := by
  obtain ⟨e, o, n⟩ := ev
  simp only at hnew hold
  subst hnew hold
  have h1 : (os.state == "unavailable") = false := beq_eq_false_iff_ne.mpr hos
  have h2 : (tpl == "") = false := beq_eq_false_iff_ne.mpr htpl
  simp [stateChangeHandler, shouldEnableForEntity, h1, h2, hrender]

/-- Witness for C5: a concrete ON event whose gate render raises leaves the
manager state untouched and the handler completes. -/
theorem c5_gate_raise_fails_closed_witness :
    stateChangeHandler autoInit ⟨"light.a", some ⟨"off"⟩, some ⟨"on"⟩⟩
        (some "expr") renderRaises 0 300 = (true, autoInit) :=
  c5_gate_raise_fails_closed autoInit ⟨"light.a", some ⟨"off"⟩, some ⟨"on"⟩⟩
    ⟨"off"⟩ "expr" "boom" renderRaises 0 300 rfl rfl (by decide) (by decide) rfl

/-- C9, counterexample.  The claim says unload clears the persisted store
entirely; but `light_timeout.async_unload_entry` never touches the persisted
`entry.data["expiry_timestamps"]` map: after unloading `lightArmedA` the
persisted entry for `light.a` is still there (while timers and subscriptions
are indeed released). -/
theorem c9_light_store_counterexample :
    (lightUnloadEntry lightArmedA).entryData = [("light.a", "300")] ∧
    (lightUnloadEntry lightArmedA).timers = [] ∧
    (lightUnloadEntry lightArmedA).unsubs = [] := by
  exact ⟨rfl, rfl, rfl⟩

/-- C9, amended.  `auto_off_timer.async_unload` removes every subscription,
calls the cancel handle of every timer registered in `timers`, clears the
registry and removes the persisted store; `light_timeout`'s unload releases
timers and subscriptions but leaves its persisted expiry map behind. -/
theorem c9_auto_unload_clears (st : AutoState) :
    (asyncUnload st).unsubs = [] ∧
    (asyncUnload st).timers = [] ∧
    (asyncUnload st).persisted = none ∧
    ((asyncUnload st).armed.all
      (fun t => !(st.timers.any (fun p => p.2 == t.tid)) || t.cancelled)) = true := by
  refine ⟨rfl, rfl, rfl, ?_⟩
  simp only [asyncUnload, List.all_eq_true, List.mem_map]
  rintro t ⟨u, hu, rfl⟩
  by_cases h : st.timers.any (fun p => p.2 == u.tid)
  · simp [h]
  · simp [h]

/-- C10.  A first-ever state event (`old_state=None`, new state `"on"`)
makes `_state_change_handler` evaluate `old_state.state` on line 211, which
raises `AttributeError`: the handler does not run to completion (first
component `false`; no state was mutated before the raise). -/
theorem c10_old_none_raises :
    stateChangeHandler autoInit ⟨"light.a", none, some ⟨"on"⟩⟩ none renderTrue 0 300 =
      (false, autoInit) := by
  exact rfl

/-- Key membership after a `pop`: the key set minus the popped key. -/
theorem mem_keysOf_dictPop {α : Type} (d : List (String × α)) (k k2 : String) :
    k2 ∈ keysOf (dictPop d k) ↔ (k2 ∈ keysOf d ∧ k2 ≠ k) := by
  simp only [keysOf, dictPop, List.mem_map, List.mem_filter, bne_iff_ne, ne_eq]
  constructor
  · rintro ⟨p, ⟨hp, hne⟩, rfl⟩
    exact ⟨⟨p, hp, rfl⟩, hne⟩
  · rintro ⟨⟨p, hp, rfl⟩, hne⟩
    exact ⟨p, ⟨hp, hne⟩, rfl⟩

/-- Key membership after an insert: the key set plus the inserted key. -/
theorem mem_keysOf_dictInsert {α : Type} (d : List (String × α)) (k k2 : String) (v : α) :
    k2 ∈ keysOf (dictInsert d k v) ↔ (k2 ∈ keysOf d ∨ k2 = k) := by
  unfold dictInsert
  by_cases h : d.any (fun p => p.1 == k) = true
  · rw [if_pos h]
    simp only [keysOf, List.map_map, List.mem_map, Function.comp]
    constructor
    · rintro ⟨p, hp, rfl⟩
      by_cases hpk : p.1 = k
      · right; simp [hpk]
      · left; exact ⟨p, hp, by simp [hpk]⟩
    · rintro (⟨p, hp, rfl⟩ | rfl)
      · by_cases hpk : p.1 = k
        · exact ⟨p, hp, by simp [hpk]⟩
        · exact ⟨p, hp, by simp [hpk]⟩
      · obtain ⟨p, hp, hpk⟩ := List.any_eq_true.mp h
        exact ⟨p, hp, by simp [beq_iff_eq.mp hpk]⟩
  · rw [if_neg h]
    simp [keysOf, List.mem_map]

/-- Popping a present key strictly shrinks the dict. -/
theorem length_dictPop_lt {α : Type} (d : List (String × α)) (k : String)
    (h : k ∈ keysOf d) : (dictPop d k).length < d.length := by
  induction d with
  | nil => simp [keysOf] at h
  | cons p rest ih =>
      by_cases hp : p.1 = k
      · have hb : (p.1 != k) = false := by simp [hp]
        simp only [dictPop, List.filter_cons, hb, Bool.false_eq_true, if_false, List.length_cons]
        exact Nat.lt_succ_of_le (List.length_filter_le _ _)
      · have hb : (p.1 != k) = true := by simp [hp]
        have hk : k ∈ keysOf rest := by
          simp only [keysOf, List.map_cons, List.mem_cons] at h
          rcases h with h | h
          · exact absurd h.symm hp
          · exact h
        simp only [dictPop, List.filter_cons, hb, if_true, List.length_cons]
        exact Nat.succ_lt_succ (ih hk)

/-- `_schedule_timeout` leaves the expiry map with the entity's entry set. -/
theorem scheduleTimeout_expiry_map (st : AutoState) (eid : String) (now timeout : Int) :
    (scheduleTimeout st eid now timeout).expiry_map =
      dictInsert st.expiry_map eid (isoFormat (now + timeout)) := by
  unfold scheduleTimeout
  cases dictGet st.timers eid <;> rfl

/-- Registry keys after `_schedule_timeout`: the old keys plus the entity. -/
theorem mem_keysOf_scheduleTimeout_timers (st : AutoState) (eid : String)
    (now timeout : Int) (k : String) :
    k ∈ keysOf (scheduleTimeout st eid now timeout).timers ↔
      (k ∈ keysOf st.timers ∨ k = eid) := by
  unfold scheduleTimeout
  cases dictGet st.timers eid with
  | none =>
      show k ∈ keysOf (dictInsert st.timers eid st.nextTid) ↔ _
      rw [mem_keysOf_dictInsert]
  | some h =>
      show k ∈ keysOf (dictInsert (dictPop st.timers eid) eid st.nextTid) ↔ _
      rw [mem_keysOf_dictInsert, mem_keysOf_dictPop]
      constructor
      · rintro (⟨h1, _⟩ | h1) <;> tauto
      · intro h1
        by_cases hke : k = eid <;> tauto

/-- The schedule operation preserves registry/map key-set agreement. -/
theorem sameKeys_scheduleTimeout (st : AutoState) (eid : String) (now timeout : Int)
    (h : sameKeys st.timers st.expiry_map) :
    sameKeys (scheduleTimeout st eid now timeout).timers
      (scheduleTimeout st eid now timeout).expiry_map := by
  intro k
  rw [mem_keysOf_scheduleTimeout_timers, scheduleTimeout_expiry_map,
    mem_keysOf_dictInsert]
  have := h k
  tauto

/-- The cancel operation preserves registry/map key-set agreement. -/
theorem sameKeys_cancelTimeout (st : AutoState) (eid : String)
    (h : sameKeys st.timers st.expiry_map) :
    sameKeys (cancelTimeout st eid).timers (cancelTimeout st eid).expiry_map := by
  intro k
  unfold cancelTimeout
  cases dictGet st.timers eid with
  | none => exact h k
  | some hdl =>
      show k ∈ keysOf (dictPop st.timers eid) ↔ k ∈ keysOf (dictPop st.expiry_map eid)
      rw [mem_keysOf_dictPop, mem_keysOf_dictPop]
      have := h k
      tauto

/-- A successfully-dispatched fire preserves registry/map key-set agreement. -/
theorem sameKeys_onTimeout (st : AutoState) (eid : String)
    (h : sameKeys st.timers st.expiry_map) :
    sameKeys (onTimeout st eid true).2.timers (onTimeout st eid true).2.expiry_map := by
  intro k
  show k ∈ keysOf (dictPop st.timers eid) ↔ k ∈ keysOf (dictPop st.expiry_map eid)
  rw [mem_keysOf_dictPop, mem_keysOf_dictPop]
  have := h k
  tauto

/-- A mutated dict makes the next iterator step of the restore loop raise. -/
theorem restoreLoop_stuck (now : Int) (orig : Nat) (pending : List (String × String))
    (st : AutoState) (h : st.expiry_map.length ≠ orig) :
    restoreLoop now orig pending st = Except.error PyError.runtimeError := by
  cases pending with
  | nil => simp [restoreLoop, h]
  | cons p rest =>
      obtain ⟨eid, iso⟩ := p
      simp [restoreLoop, h]

/-- A restore loop that completes dropped nothing: the expiry map is exactly
the one it started from, and the registry gained exactly the pending keys. -/
theorem restoreLoop_ok_keys (now : Int) (orig : Nat) (pending : List (String × String)) :
    ∀ (st st2 : AutoState),
      restoreLoop now orig pending st = Except.ok st2 →
      (∀ p ∈ pending, p.1 ∈ keysOf st.expiry_map) →
      st.expiry_map.length = orig →
      st2.expiry_map = st.expiry_map ∧
      (∀ k, k ∈ keysOf st2.timers ↔
        (k ∈ keysOf st.timers ∨ k ∈ pending.map Prod.fst)) := by
  induction pending with
  | nil =>
      intro st st2 hok _ hlen
      simp [restoreLoop, hlen] at hok
      subst hok
      simp
  | cons p rest ih =>
      obtain ⟨eid, iso⟩ := p
      intro st st2 hok hmem hlen
      rw [restoreLoop, if_pos hlen] at hok
      cases hp : parseIso iso with
      | some expiry =>
          simp only [restoreStep, hp] at hok
          obtain ⟨hexp, hkeys⟩ := ih _ st2 hok
            (fun q hq => hmem q (List.mem_cons_of_mem _ hq)) hlen
          have hexp2 : st2.expiry_map = st.expiry_map := hexp
          refine ⟨hexp2, ?_⟩
          intro k
          have hk2 : k ∈ keysOf st2.timers ↔
              k ∈ keysOf (dictInsert st.timers eid st.nextTid) ∨
                k ∈ List.map Prod.fst rest := hkeys k
          rw [mem_keysOf_dictInsert] at hk2
          simp only [List.map_cons, List.mem_cons]
          tauto
      | none =>
          simp only [restoreStep, hp] at hok
          have hlt : (dictPop st.expiry_map eid).length < st.expiry_map.length :=
            length_dictPop_lt _ _ (hmem (eid, iso) (List.mem_cons_self _ _))
          rw [hlen] at hlt
          rw [restoreLoop_stuck now orig rest _ (Nat.ne_of_lt hlt)] at hok
          cases hok

/-- A completed reconciliation leaves the rebuilt registry and the expiry
map with the same key set (the registry is empty at setup before restore). -/
theorem sameKeys_restoreTimers (st st2 : AutoState) (now : Int)
    (ht : st.timers = [])
    (hok : restoreTimers st now = Except.ok st2) :
    sameKeys st2.timers st2.expiry_map := by
  unfold restoreTimers at hok
  cases hloop : restoreLoop now st.expiry_map.length st.expiry_map st with
  | error e => rw [hloop] at hok; cases hok
  | ok st1 =>
      rw [hloop] at hok
      have hst2 : st2 = saveExpiryMap st1 := by
        cases hok
        rfl
      obtain ⟨hexp, hkeys⟩ := restoreLoop_ok_keys now st.expiry_map.length
        st.expiry_map st st1 hloop
        (fun p hp => List.mem_map.mpr ⟨p, hp, rfl⟩) rfl
      intro k
      have h1 : k ∈ keysOf st2.timers ↔ k ∈ keysOf st1.timers := by
        rw [hst2]; exact Iff.rfl
      have h2 : k ∈ keysOf st2.expiry_map ↔ k ∈ keysOf st1.expiry_map := by
        rw [hst2]; exact Iff.rfl
      rw [h1, h2, hexp]
      have := hkeys k
      rw [ht] at this
      simpa [keysOf] using this

/-- `_schedule_timeout` (light variant): resulting expiry map. -/
theorem lightScheduleTimeout_expiry_map (st : LightState) (eid : String)
    (now timeout : Int) :
    (lightScheduleTimeout st eid now timeout).expiry_map =
      dictInsert st.expiry_map eid (isoFormat (now + timeout)) := by
  unfold lightScheduleTimeout
  cases dictGet st.timers eid <;> rfl

/-- Registry keys after `_schedule_timeout` (light variant). -/
theorem mem_keysOf_lightScheduleTimeout_timers (st : LightState) (eid : String)
    (now timeout : Int) (k : String) :
    k ∈ keysOf (lightScheduleTimeout st eid now timeout).timers ↔
      (k ∈ keysOf st.timers ∨ k = eid) := by
  unfold lightScheduleTimeout
  cases dictGet st.timers eid with
  | none =>
      show k ∈ keysOf (dictInsert st.timers eid st.nextTid) ↔ _
      rw [mem_keysOf_dictInsert]
  | some h =>
      show k ∈ keysOf (dictInsert (dictPop st.timers eid) eid st.nextTid) ↔ _
      rw [mem_keysOf_dictInsert, mem_keysOf_dictPop]
      constructor
      · rintro (⟨h1, _⟩ | h1) <;> tauto
      · intro h1
        by_cases hke : k = eid <;> tauto

/-- The light schedule operation preserves registry/map key agreement. -/
theorem sameKeys_lightScheduleTimeout (st : LightState) (eid : String)
    (now timeout : Int) (h : sameKeys st.timers st.expiry_map) :
    sameKeys (lightScheduleTimeout st eid now timeout).timers
      (lightScheduleTimeout st eid now timeout).expiry_map := by
  intro k
  rw [mem_keysOf_lightScheduleTimeout_timers, lightScheduleTimeout_expiry_map,
    mem_keysOf_dictInsert]
  have := h k
  tauto

/-- The light cancel operation preserves registry/map key agreement. -/
theorem sameKeys_lightCancelTimeout (st : LightState) (eid : String)
    (h : sameKeys st.timers st.expiry_map) :
    sameKeys (lightCancelTimeout st eid).timers (lightCancelTimeout st eid).expiry_map := by
  intro k
  unfold lightCancelTimeout
  cases dictGet st.timers eid with
  | none => exact h k
  | some hdl =>
      show k ∈ keysOf (dictPop st.timers eid) ↔ k ∈ keysOf (dictPop st.expiry_map eid)
      rw [mem_keysOf_dictPop, mem_keysOf_dictPop]
      have := h k
      tauto

/-- A successfully-dispatched light fire preserves key agreement. -/
theorem sameKeys_lightOnTimeout (st : LightState) (eid : String)
    (h : sameKeys st.timers st.expiry_map) :
    sameKeys (lightOnTimeout st eid true).2.timers
      (lightOnTimeout st eid true).2.expiry_map := by
  intro k
  show k ∈ keysOf (dictPop st.timers eid) ↔ k ∈ keysOf (dictPop st.expiry_map eid)
  rw [mem_keysOf_dictPop, mem_keysOf_dictPop]
  have := h k
  tauto

/-- In the update-in-place branch of an insert, `find?` hits the new pair. -/
theorem find_dictInsert_aux {α : Type} (k : String) (v : α) :
    ∀ d : List (String × α), d.any (fun p => p.1 == k) = true →
      (d.map (fun p => if p.1 == k then (k, v) else p)).find? (fun p => p.1 == k) =
        some (k, v) := by
  intro d
  induction d with
  | nil => intro h; simp at h
  | cons p rest ih =>
      intro h
      by_cases hp : p.1 = k
      · simp [hp, List.find?_cons]
      · have hpb : (p.1 == k) = false := beq_eq_false_iff_ne.mpr hp
        have h2 : rest.any (fun q => q.1 == k) = true := by
          rcases List.any_eq_true.mp h with ⟨q, hq, hqk⟩
          rcases List.mem_cons.mp hq with rfl | hq2
          · rw [hqk] at hpb; cases hpb
          · exact List.any_eq_true.mpr ⟨q, hq2, hqk⟩
        simp only [List.map_cons, List.find?_cons, hpb, if_neg]
        simpa [hpb] using ih h2

/-- `find?` over an append whose left part has no matching key. -/
theorem find_append_single {α : Type} (k : String) (v : α) :
    ∀ d : List (String × α), (∀ p ∈ d, (p.1 == k) = false) →
      (d ++ [(k, v)]).find? (fun p => p.1 == k) = some (k, v) := by
  intro d
  induction d with
  | nil => simp [List.find?]
  | cons p rest ih =>
      intro hall
      have hpb := hall p (List.mem_cons_self _ _)
      simp only [List.cons_append, List.find?_cons, hpb]
      exact ih (fun q hq => hall q (List.mem_cons_of_mem _ hq))

/-- Looking up the just-inserted key yields the just-inserted value. -/
theorem dictGet_dictInsert_self {α : Type} (d : List (String × α)) (k : String) (v : α) :
    dictGet (dictInsert d k v) k = some v := by
  unfold dictGet dictInsert
  by_cases h : d.any (fun p => p.1 == k) = true
  · rw [if_pos h, find_dictInsert_aux k v d h]
    rfl
  · rw [if_neg h]
    have hall : ∀ p ∈ d, (p.1 == k) = false := by
      intro p hp
      cases hb : (p.1 == k) with
      | false => rfl
      | true => exact absurd (List.any_eq_true.mpr ⟨p, hp, hb⟩) h
    rw [find_append_single k v d hall]
    rfl

/-- Cancelling a handle id distributes over list append. -/
theorem cancelTid_append (l1 l2 : List AutoTimer) (n : Nat) :
    cancelTid (l1 ++ l2) n = cancelTid l1 n ++ cancelTid l2 n := by
  simp [cancelTid]

/-- Cancelling a handle id never handed out yet is a no-op. -/
theorem cancelTid_of_lt (l : List AutoTimer) (n : Nat)
    (h : ∀ t ∈ l, t.tid < n) : cancelTid l n = l := by
  unfold cancelTid
  have hmap : l.map (fun t => if t.tid == n then { t with cancelled := true } else t) =
      l.map id :=
    List.map_congr_left (fun t ht => by
      have hne : (t.tid == n) = false := beq_eq_false_iff_ne.mpr (Nat.ne_of_lt (h t ht))
      simp [hne])
  rw [hmap, List.map_id]

/-- Scheduling when no timer is registered: armed list gains a fresh timer. -/
theorem scheduleTimeout_armed_none (st : AutoState) (eid : String) (now timeout : Int)
    (h : dictGet st.timers eid = none) :
    (scheduleTimeout st eid now timeout).armed =
      st.armed ++ [⟨st.nextTid, eid, timeout, false⟩] := by
  unfold scheduleTimeout
  rw [h]
  rfl

/-- Scheduling when no timer is registered: registry after. -/
theorem scheduleTimeout_timers_none (st : AutoState) (eid : String) (now timeout : Int)
    (h : dictGet st.timers eid = none) :
    (scheduleTimeout st eid now timeout).timers = dictInsert st.timers eid st.nextTid := by
  unfold scheduleTimeout
  rw [h]
  rfl

/-- Scheduling over an existing handle cancels it first. -/
theorem scheduleTimeout_armed_some (st : AutoState) (eid : String) (now timeout : Int)
    (hdl : Nat) (h : dictGet st.timers eid = some hdl) :
    (scheduleTimeout st eid now timeout).armed =
      cancelTid st.armed hdl ++ [⟨st.nextTid, eid, timeout, false⟩] := by
  unfold scheduleTimeout
  rw [h]
  rfl

/-- Scheduling always consumes exactly one fresh handle id. -/
theorem scheduleTimeout_nextTid (st : AutoState) (eid : String) (now timeout : Int) :
    (scheduleTimeout st eid now timeout).nextTid = st.nextTid + 1 := by
  unfold scheduleTimeout
  cases dictGet st.timers eid <;> rfl

/-- C6.  After every completed Timeout Manager operation the in-memory timer
registry and the ExpiryMap hold the same key set: scheduling on ON, cancel on
OFF, a successfully-dispatched timer fire, and a completed startup
reconciliation (from the empty setup registry) each preserve or establish
registry/map key agreement — for the `auto_off_timer` manager and for the
corresponding `light_timeout` operations alike. -/
theorem c6_registry_mirrors_map :
    (∀ (st : AutoState) (eid : String) (now timeout : Int),
        sameKeys st.timers st.expiry_map →
        sameKeys (scheduleTimeout st eid now timeout).timers
          (scheduleTimeout st eid now timeout).expiry_map) ∧
    (∀ (st : AutoState) (eid : String),
        sameKeys st.timers st.expiry_map →
        sameKeys (cancelTimeout st eid).timers (cancelTimeout st eid).expiry_map) ∧
    (∀ (st : AutoState) (eid : String),
        sameKeys st.timers st.expiry_map →
        sameKeys (onTimeout st eid true).2.timers (onTimeout st eid true).2.expiry_map) ∧
    (∀ (st st2 : AutoState) (now : Int),
        st.timers = [] →
        restoreTimers st now = Except.ok st2 →
        sameKeys st2.timers st2.expiry_map) ∧
    (∀ (st : LightState) (eid : String) (now timeout : Int),
        sameKeys st.timers st.expiry_map →
        sameKeys (lightScheduleTimeout st eid now timeout).timers
          (lightScheduleTimeout st eid now timeout).expiry_map) ∧
    (∀ (st : LightState) (eid : String),
        sameKeys st.timers st.expiry_map →
        sameKeys (lightCancelTimeout st eid).timers (lightCancelTimeout st eid).expiry_map) ∧
    (∀ (st : LightState) (eid : String),
        sameKeys st.timers st.expiry_map →
        sameKeys (lightOnTimeout st eid true).2.timers
          (lightOnTimeout st eid true).2.expiry_map) :=
  ⟨sameKeys_scheduleTimeout, sameKeys_cancelTimeout, sameKeys_onTimeout,
    sameKeys_restoreTimers, sameKeys_lightScheduleTimeout,
    sameKeys_lightCancelTimeout, sameKeys_lightOnTimeout⟩

/-- Witness for C6: each operation applied at a concrete agreeing state. -/
theorem c6_registry_mirrors_map_witness :
    sameKeys (scheduleTimeout autoArmedA "light.b" 0 300).timers
      (scheduleTimeout autoArmedA "light.b" 0 300).expiry_map ∧
    sameKeys (cancelTimeout autoArmedA "light.a").timers
      (cancelTimeout autoArmedA "light.a").expiry_map ∧
    sameKeys (onTimeout autoArmedA "light.a" true).2.timers
      (onTimeout autoArmedA "light.a" true).2.expiry_map ∧
    sameKeys autoRestoredOne.timers autoRestoredOne.expiry_map ∧
    sameKeys (lightScheduleTimeout lightArmedA "light.b" 0 300).timers
      (lightScheduleTimeout lightArmedA "light.b" 0 300).expiry_map ∧
    sameKeys (lightCancelTimeout lightArmedA "light.a").timers
      (lightCancelTimeout lightArmedA "light.a").expiry_map ∧
    sameKeys (lightOnTimeout lightArmedA "light.a" true).2.timers
      (lightOnTimeout lightArmedA "light.a" true).2.expiry_map :=
  ⟨c6_registry_mirrors_map.1 autoArmedA "light.b" 0 300
      (by intro k; simp [autoArmedA, keysOf]),
    c6_registry_mirrors_map.2.1 autoArmedA "light.a"
      (by intro k; simp [autoArmedA, keysOf]),
    c6_registry_mirrors_map.2.2.1 autoArmedA "light.a"
      (by intro k; simp [autoArmedA, keysOf]),
    c6_registry_mirrors_map.2.2.2.1 autoLoadedOne autoRestoredOne 40 rfl rfl,
    c6_registry_mirrors_map.2.2.2.2.1 lightArmedA "light.b" 0 300
      (by intro k; simp [lightArmedA, keysOf]),
    c6_registry_mirrors_map.2.2.2.2.2.1 lightArmedA "light.a"
      (by intro k; simp [lightArmedA, keysOf]),
    c6_registry_mirrors_map.2.2.2.2.2.2 lightArmedA "light.a"
      (by intro k; simp [lightArmedA, keysOf])⟩

/-- C7.  Renewal semantics: starting from a state where the entity has no
registered handle and every previously armed timer for it is cancelled (and
handle ids are bounded by the fresh counter), two consecutive ON events for
the same entity leave exactly one live timer — the one armed by the second
event — the first event's timer having been cancelled, and the persisted
expiry equals the second ON time plus `timeout_duration`. -/
theorem c7_renewal_single_timer (st : AutoState) (eid : String) (t1 t2 tmo : Int)
    (hnone : dictGet st.timers eid = none)
    (hdead : ∀ t ∈ st.armed, t.target = eid → t.cancelled = true)
    (hbound : ∀ t ∈ st.armed, t.tid < st.nextTid) :
    liveTimersFor (scheduleTimeout (scheduleTimeout st eid t1 tmo) eid t2 tmo) eid =
      [⟨st.nextTid + 1, eid, tmo, false⟩] ∧
    dictGet (scheduleTimeout (scheduleTimeout st eid t1 tmo) eid t2 tmo).expiry_map eid =
      some (isoFormat (t2 + tmo)) ∧
    AutoTimer.mk st.nextTid eid tmo true ∈
      (scheduleTimeout (scheduleTimeout st eid t1 tmo) eid t2 tmo).armed := by
  have harm1 : (scheduleTimeout st eid t1 tmo).armed =
      st.armed ++ [⟨st.nextTid, eid, tmo, false⟩] :=
    scheduleTimeout_armed_none st eid t1 tmo hnone
  have hnext1 : (scheduleTimeout st eid t1 tmo).nextTid = st.nextTid + 1 :=
    scheduleTimeout_nextTid st eid t1 tmo
  have hscrut : dictGet (scheduleTimeout st eid t1 tmo).timers eid = some st.nextTid := by
    rw [scheduleTimeout_timers_none st eid t1 tmo hnone]
    exact dictGet_dictInsert_self _ _ _
  have harm2 : (scheduleTimeout (scheduleTimeout st eid t1 tmo) eid t2 tmo).armed =
      cancelTid (scheduleTimeout st eid t1 tmo).armed st.nextTid ++
        [⟨(scheduleTimeout st eid t1 tmo).nextTid, eid, tmo, false⟩] :=
    scheduleTimeout_armed_some _ eid t2 tmo _ hscrut
  rw [harm1, hnext1, cancelTid_append, cancelTid_of_lt st.armed st.nextTid hbound] at harm2
  have hsingle : cancelTid [⟨st.nextTid, eid, tmo, false⟩] st.nextTid =
      [⟨st.nextTid, eid, tmo, true⟩] := by
    simp [cancelTid]
  rw [hsingle] at harm2
  refine ⟨?_, ?_, ?_⟩
  · unfold liveTimersFor
    rw [harm2, List.filter_append, List.filter_append]
    have hnil : st.armed.filter (fun t => !t.cancelled && t.target == eid) = [] := by
      rw [List.filter_eq_nil_iff]
      intro t ht hcon
      rw [Bool.and_eq_true] at hcon
      obtain ⟨hc1, hc2⟩ := hcon
      have hcanc := hdead t ht (beq_iff_eq.mp hc2)
      rw [hcanc] at hc1
      simp at hc1
    rw [hnil]
    simp
  · rw [scheduleTimeout_expiry_map]
    exact dictGet_dictInsert_self _ _ _
  · rw [harm2]
    simp

/-- Witness for C7: two ON events for `light.a` from the fresh state, at
times 0 and 5 with a 300-second timeout. -/
theorem c7_renewal_single_timer_witness :
    liveTimersFor (scheduleTimeout (scheduleTimeout autoInit "light.a" 0 300)
        "light.a" 5 300) "light.a" =
      [⟨autoInit.nextTid + 1, "light.a", 300, false⟩] ∧
    dictGet (scheduleTimeout (scheduleTimeout autoInit "light.a" 0 300)
        "light.a" 5 300).expiry_map "light.a" =
      some (isoFormat (5 + 300)) ∧
    AutoTimer.mk autoInit.nextTid "light.a" 300 true ∈
      (scheduleTimeout (scheduleTimeout autoInit "light.a" 0 300)
        "light.a" 5 300).armed :=
  c7_renewal_single_timer autoInit "light.a" 0 5 300 rfl
    (by intro t ht; simp [autoInit] at ht)
    (by intro t ht; simp [autoInit] at ht)
